import Mathlib

/-!
# Verification of the one-camera capture pipeline

Shallow embedding of the frame capture request-completion pipeline of
`src/onecam_capture.cpp` and `src/onecam_frame.cpp`:

* `detectFormatDetails` — the pixel-format classification function
  (`detectFormatDetails`, onecam_capture.cpp lines 34-70);
* `saveFrameOutput` / `saveFrameArtifact` — the byte stream written by
  `saveFrameAsRAW` (lines 85-174), together with the set of offsets it
  reads from the first plane's mapping;
* `Capture.requestComplete` — the completion callback of
  onecam_capture.cpp (lines 176-223);
* `FrameDemo.requestComplete` — the completion callback of
  onecam_frame.cpp (lines 18-52).

`uint32_t` quantities (width, height, stride, bits per pixel, plane
lengths, the frame counter) are modelled as `Nat`: every claim below is
about in-range configurations far from 2^32, so wrap-around never
changes any value involved.
-/

namespace OneCam

/-- C++ `s.find(pat) != std::string::npos`: `pat` occurs as a substring of `s`. -/
def strContains (s pat : String) : Bool :=
  decide (List.IsInfix pat.toList s.toList)

/-- Result of `detectFormatDetails`: the two globals it assigns from the
format tag (`numPlanes`, `bitsPerPixel`). -/
structure FormatDetails where
  numPlanes : Nat
  bitsPerPixel : Nat
deriving Repr, DecidableEq

/-- Plane-count arm of `detectFormatDetails` (onecam_capture.cpp lines 41-50). -/
def detectNumPlanes (formatStr : String) : Nat :=
  if strContains formatStr "YUV420" || strContains formatStr "YV12" then 3
  else if strContains formatStr "NV12" || strContains formatStr "NV21" then 2
  else 1

/-- Bits-per-pixel arm of `detectFormatDetails` (onecam_capture.cpp lines 52-69). -/
def detectBitsPerPixel (formatStr : String) : Nat :=
  if strContains formatStr "XRGB8888" || strContains formatStr "ARGB8888"
      || strContains formatStr "XBGR8888" then 32
  else if strContains formatStr "RGB888" || strContains formatStr "BGR888" then 24
  else if strContains formatStr "YUYV" || strContains formatStr "UYVY" then 16
  else if strContains formatStr "YUV420" || strContains formatStr "NV12" then 12
  else 8

/-- `detectFormatDetails` (onecam_capture.cpp lines 34-70), restricted to the
two outputs derived from the format tag string. It is a plain function of
the tag: total and deterministic by construction. -/
def detectFormatDetails (formatStr : String) : FormatDetails :=
  ⟨detectNumPlanes formatStr, detectBitsPerPixel formatStr⟩

/-- The geometry globals consumed by `saveFrameAsRAW`: `imageWidth`,
`imageHeight`, `imageStride`, `bitsPerPixel`. -/
structure FrameConfig where
  imageWidth : Nat
  imageHeight : Nat
  imageStride : Nat
  bitsPerPixel : Nat
deriving Repr, DecidableEq

/-- The row width `imageWidth * (bitsPerPixel / 8)` used by `saveFrameAsRAW`
both in the stride test (line 124) and as `bytesPerRow` (line 134).
Note the C++ parenthesisation: the division truncates before the multiply. -/
def bytesPerRow (cfg : FrameConfig) : Nat :=
  cfg.imageWidth * (cfg.bitsPerPixel / 8)

/-- Bytes emitted for one row by `file.write((char *)(data + row * imageStride),
bytesPerRow)` (line 137), reading from the mapped region `mem`. -/
def rowBytes (cfg : FrameConfig) (mem : List Nat) (row : Nat) : List Nat :=
  (mem.drop (row * cfg.imageStride)).take (bytesPerRow cfg)

/-- The byte stream `saveFrameAsRAW` writes to the output file once the plane
is mapped and the file is open (lines 124-139): the whole mapping
(`plane0.length` bytes) on the fast path, otherwise `imageHeight` rows of
`bytesPerRow` bytes each. -/
def saveFrameOutput (cfg : FrameConfig) (mem : List Nat) : List Nat :=
  if cfg.imageStride = bytesPerRow cfg then
    mem
  else
    (List.range cfg.imageHeight).flatMap (rowBytes cfg mem)

/-- Whether `saveFrameAsRAW` takes the row-by-row branch (the loop at
line 136): decided by the stride test alone, with no bound validation. -/
def rowLoopExecuted (cfg : FrameConfig) : Bool :=
  decide (cfg.imageStride ≠ bytesPerRow cfg)

/-- The offsets into the first plane's mapping that the row-by-row branch
reads: for each `row < imageHeight`, bytes `row * imageStride + i` for
`i < bytesPerRow`. -/
def rowLoopReadOffsets (cfg : FrameConfig) : List Nat :=
  (List.range cfg.imageHeight).flatMap (fun row =>
    (List.range (bytesPerRow cfg)).map (fun i => row * cfg.imageStride + i))

/-- The row-by-row copy algorithm of spec section 4.4, i.e. the else-branch
of `saveFrameAsRAW` (lines 133-138) run unconditionally: `imageHeight` rows
of `bytesPerRow` bytes, row `r` starting at offset `r * imageStride`. -/
def rowByRowOutput (cfg : FrameConfig) (mem : List Nat) : List Nat :=
  (List.range cfg.imageHeight).flatMap (rowBytes cfg mem)

/-- One plane of a `FrameBuffer`, viewed as the bytes of its mapping;
`mem.length` plays the role of `plane.length`. -/
structure Plane where
  mem : List Nat
deriving Repr, DecidableEq

/-- `saveFrameAsRAW` (onecam_capture.cpp lines 85-174) as a function from the
buffer's plane vector to the persisted artifact's bytes: `none` when
`mmap` of the first plane fails (early return, lines 110-114), otherwise
the bytes written. Only `planes[0]` is ever mapped or read. -/
def saveFrameArtifact (cfg : FrameConfig) (mapOk : Bool) (planes : List Plane) : Option (List Nat) :=
  if mapOk then some (saveFrameOutput cfg (planes.headD ⟨[]⟩).mem)
  else none

/-- One completed request as seen by the completion callbacks: its status
(`RequestCancelled` or not), whether `mmap` of its first plane would
succeed, and its buffer's plane vector. Each request carries exactly one
buffer (one stream, buffers bound 1:1 at setup). -/
structure Completion where
  cancelled : Bool
  mapOk : Bool
  planes : List Plane
deriving Repr, DecidableEq

namespace Capture

/-- The mutable session globals of onecam_capture.cpp touched by
`requestComplete`: `running`, `frameCount`, `saveNextFrame`, `frameSaved`. -/
structure CamState where
  running : Bool
  frameCount : Nat
  saveNextFrame : Bool
  frameSaved : Bool
deriving Repr, DecidableEq

/-- The globals' initial values (onecam_capture.cpp lines 14-18). -/
def initialState : CamState :=
  { running := true, frameCount := 0, saveNextFrame := false, frameSaved := false }

/-- Observable outcome of one `requestComplete` invocation:
the updated globals, the artifact written by `saveFrameAsRAW` (if any),
whether the every-10th-frame status line printed, and whether the request
was resubmitted (`request->reuse` + `camera->queueRequest`). -/
structure StepResult where
  state : CamState
  persisted : Option (List Nat)
  statusLine : Bool
  resubmitted : Bool
deriving Repr, DecidableEq

/-- `requestComplete` of onecam_capture.cpp (lines 176-223):
cancelled requests return immediately; otherwise the frame counter is
incremented, the frame is saved when `saveNextFrame || frameCount == 1`
(which also sets `frameSaved`), a status line prints on every 10th frame,
and the request is retired when `frameSaved` (with `running := false`) or
when `running` is already false, else resubmitted. -/
def requestComplete (cfg : FrameConfig) (s : CamState) (c : Completion) : StepResult :=
  if c.cancelled then
    ⟨s, none, false, false⟩
  else
    let fc := s.frameCount + 1
    let doSave := s.saveNextFrame || fc == 1
    let persisted := if doSave then saveFrameArtifact cfg c.mapOk c.planes else none
    let saveNext := if doSave then false else s.saveNextFrame
    let saved := if doSave then true else s.frameSaved
    let line := fc % 10 == 0
    if saved then
      ⟨⟨false, fc, saveNext, saved⟩, persisted, line, false⟩
    else if s.running then
      ⟨⟨s.running, fc, saveNext, saved⟩, persisted, line, true⟩
    else
      ⟨⟨s.running, fc, saveNext, saved⟩, persisted, line, false⟩

/-- A whole session of completion deliveries: fold `requestComplete` over a
list of completions, collecting each invocation's `StepResult`. -/
def runCompletions (cfg : FrameConfig) (s : CamState) : List Completion → CamState × List StepResult
  | [] => (s, [])
  | c :: cs =>
    let r := requestComplete cfg s c
    let rest := runCompletions cfg r.state cs
    (rest.1, r :: rest.2)

end Capture

namespace FrameDemo

/-- The mutable session globals of onecam_frame.cpp touched by
`requestComplete`: `running` and `frameCount`. -/
structure CamState where
  running : Bool
  frameCount : Nat
deriving Repr, DecidableEq

/-- Observable outcome of one `requestComplete` invocation in
onecam_frame.cpp: updated globals, status-line emission, resubmission. -/
structure StepResult where
  state : CamState
  statusLine : Bool
  resubmitted : Bool
deriving Repr, DecidableEq

/-- `requestComplete` of onecam_frame.cpp (lines 18-52): cancelled requests
return immediately; otherwise the counter is incremented, a line prints on
every 10th frame, and the request is resubmitted iff `running` is true. -/
def requestComplete (s : CamState) (c : Completion) : StepResult :=
  if c.cancelled then
    ⟨s, false, false⟩
  else
    let fc := s.frameCount + 1
    let line := fc % 10 == 0
    if s.running then
      ⟨⟨s.running, fc⟩, line, true⟩
    else
      ⟨⟨s.running, fc⟩, line, false⟩

/-- Fold `requestComplete` over a list of completions. -/
def runCompletions (s : CamState) : List Completion → CamState × List StepResult
  | [] => (s, [])
  | c :: cs =>
    let r := requestComplete s c
    let rest := runCompletions r.state cs
    (rest.1, r :: rest.2)

end FrameDemo

/-! ## Helper lemmas -/

/-- Concatenating `n` consecutive stride-`s` slices of a list reproduces its
first `n * s` bytes. -/
theorem flatMap_take_drop (l : List Nat) (s : Nat) (n : Nat) :
    (List.range n).flatMap (fun r => (l.drop (r * s)).take s) = l.take (n * s) := by
  induction n with
  | zero => simp
  | succ n ih =>
    rw [List.range_succ, List.flatMap_append, ih, Nat.succ_mul, List.take_add]
    simp

/-- The frame counter after one capture callback: +1 unless cancelled. -/
theorem Capture.requestComplete_frameCount (cfg : FrameConfig) (s : Capture.CamState)
    (c : Completion) :
    (Capture.requestComplete cfg s c).state.frameCount
      = s.frameCount + (if c.cancelled then 0 else 1) := by
  rcases c with ⟨cc, mo, pl⟩
  cases cc
  · simp only [Capture.requestComplete, Bool.false_eq_true, if_false]
    (repeat' split) <;> rfl
  · simp [Capture.requestComplete]

/-- The frame counter after one frame-demo callback: +1 unless cancelled. -/
theorem FrameDemo.requestComplete_frameCount_demo (s : FrameDemo.CamState) (c : Completion) :
    (FrameDemo.requestComplete s c).state.frameCount
      = s.frameCount + (if c.cancelled then 0 else 1) := by
  rcases c with ⟨cc, mo, pl⟩
  cases cc
  · simp only [FrameDemo.requestComplete, Bool.false_eq_true, if_false]
    (repeat' split) <;> rfl
  · simp [FrameDemo.requestComplete]

/-- Over a whole session the frame counter grows by exactly the number of
non-cancelled completions. -/
theorem Capture.runCompletions_frameCount (cfg : FrameConfig) :
    ∀ (cs : List Completion) (s : Capture.CamState),
      (Capture.runCompletions cfg s cs).1.frameCount
        = s.frameCount + cs.countP (fun x => !x.cancelled)
  | [], s => by simp [Capture.runCompletions]
  | c :: cs, s => by
    simp only [Capture.runCompletions, List.countP_cons]
    rw [Capture.runCompletions_frameCount cfg cs _, Capture.requestComplete_frameCount]
    by_cases h : c.cancelled <;> simp [h] <;> omega

/-- Once a state has `frameSaved` set (with `saveNextFrame` clear, `running`
false and at least one frame counted), any further completion persists
nothing, resubmits nothing, and preserves all four facts. -/
theorem Capture.step_after_saved (cfg : FrameConfig) (s : Capture.CamState) (c : Completion)
    (h1 : s.frameSaved = true) (h2 : s.saveNextFrame = false)
    (h3 : s.running = false) (h4 : 1 ≤ s.frameCount) :
    (Capture.requestComplete cfg s c).persisted = none ∧
    (Capture.requestComplete cfg s c).resubmitted = false ∧
    (Capture.requestComplete cfg s c).state.frameSaved = true ∧
    (Capture.requestComplete cfg s c).state.saveNextFrame = false ∧
    (Capture.requestComplete cfg s c).state.running = false ∧
    1 ≤ (Capture.requestComplete cfg s c).state.frameCount := by
  rcases c with ⟨cc, mo, pl⟩
  rcases s with ⟨run, fc, sn, fs⟩
  simp only at h1 h2 h3
  subst h1 h2 h3
  have h5 : 1 ≤ fc := h4
  cases cc
  · have hfc : (fc + 1 == 1) = false := by
      simp only [beq_eq_false_iff_ne, ne_eq]
      omega
    simp [Capture.requestComplete, hfc]
    try exact h5
  · simp [Capture.requestComplete]
    try exact h5

/-- `Capture.step_after_saved` extended along a whole completion sequence. -/
theorem Capture.run_after_saved (cfg : FrameConfig) :
    ∀ (cs : List Completion) (s : Capture.CamState),
      s.frameSaved = true → s.saveNextFrame = false → s.running = false →
      1 ≤ s.frameCount →
      (Capture.runCompletions cfg s cs).1.running = false ∧
      ∀ r ∈ (Capture.runCompletions cfg s cs).2, r.persisted = none ∧ r.resubmitted = false
  | [], s => by
    intro h1 h2 h3 h4
    simp [Capture.runCompletions, h3]
  | c :: cs, s => by
    intro h1 h2 h3 h4
    obtain ⟨p1, p2, q1, q2, q3, q4⟩ := Capture.step_after_saved cfg s c h1 h2 h3 h4
    have ih := Capture.run_after_saved cfg cs (Capture.requestComplete cfg s c).state
      q1 q2 q3 q4
    simp only [Capture.runCompletions]
    refine ⟨ih.1, ?_⟩
    intro r hr
    rcases List.mem_cons.1 hr with h | h
    · subst h; exact ⟨p1, p2⟩
    · exact ih.2 r h

/-! ## Claims -/

/-- C1: the spec demands that `height * stride > plane.length` be surfaced as
a fatal configuration-mismatch error before the row loop, and that no offset
at or past `plane.length` is ever read. The code has no such check: at
width 4, height 2, stride 6, 8 bpp with an 8-byte first plane
(`height * stride = 12 > 8`), the row branch is taken, an artifact is
written with no error, and the loop's read footprint includes offsets 8
and 9, past the mapping's length. -/
theorem C1_codebug :
    2 * 6 > 8 ∧
    rowLoopExecuted ⟨4, 2, 6, 8⟩ = true ∧
    saveFrameArtifact ⟨4, 2, 6, 8⟩ true [⟨[0,1,2,3,4,5,6,7]⟩] =
      some [0, 1, 2, 3, 6, 7] ∧
    (rowLoopReadOffsets ⟨4, 2, 6, 8⟩).any (fun off => decide (8 ≤ off)) = true := by
  decide

/-- C2 counterexample: the claim says the writer's logical row width equals
`width * bitsPerPixel / 8` with integer truncation, e.g. 960 for width 640 at
12 bpp. The code computes `imageWidth * (bitsPerPixel / 8)`, truncating the
bytes-per-pixel first: for width 640 at 12 bpp both use sites get 640, not
960, and at width 4 / 12 bpp the row loop writes 4 bytes per row, not 6. -/
theorem C2_counterexample :
    bytesPerRow ⟨640, 480, 960, 12⟩ = 640 ∧
    (640 : Nat) * 12 / 8 = 960 ∧
    bytesPerRow ⟨640, 480, 960, 12⟩ ≠ 640 * 12 / 8 ∧
    (saveFrameOutput ⟨4, 1, 10, 12⟩ [0,1,2,3,4,5,6,7,9,9]).length = 4 ∧
    (4 : Nat) * 12 / 8 = 6 := by decide

/-- C2 amended: the row width used by the writer, in the fast-path stride
test and as the row loop's per-row byte count alike, is
`imageWidth * (bitsPerPixel / 8)` — the bytes-per-pixel division truncates
before the multiplication. It agrees with `width * bitsPerPixel / 8` exactly
when 8 divides bitsPerPixel; for 12 bpp formats it is `imageWidth` (640 for
width 640), not `width * 12 / 8`. -/
theorem C2_amended (cfg : FrameConfig) (mem : List Nat) (r : Nat) :
    bytesPerRow cfg = cfg.imageWidth * (cfg.bitsPerPixel / 8) ∧
    (cfg.bitsPerPixel % 8 = 0 →
      bytesPerRow cfg = cfg.imageWidth * cfg.bitsPerPixel / 8) ∧
    (cfg.imageStride = bytesPerRow cfg → saveFrameOutput cfg mem = mem) ∧
    (r * cfg.imageStride + bytesPerRow cfg ≤ mem.length →
      (rowBytes cfg mem r).length = bytesPerRow cfg) := by
  refine ⟨rfl, ?_, ?_, ?_⟩
  · intro h
    rw [Nat.mul_div_assoc cfg.imageWidth (Nat.dvd_of_mod_eq_zero h)]
    rfl
  · intro h
    simp [saveFrameOutput, h]
  · intro h
    simp only [rowBytes, List.length_take, List.length_drop]
    omega

/-- C2 witness: the amended theorem at a 32 bpp configuration, all
hypotheses discharged. -/
theorem C2_amended_witness :
    bytesPerRow ⟨2, 3, 8, 32⟩ = 2 * 32 / 8 ∧
    saveFrameOutput ⟨2, 3, 8, 32⟩ (List.replicate 24 5) = List.replicate 24 5 ∧
    (rowBytes ⟨2, 3, 8, 32⟩ (List.replicate 24 5) 1).length = bytesPerRow ⟨2, 3, 8, 32⟩ :=
  ⟨(C2_amended ⟨2, 3, 8, 32⟩ (List.replicate 24 5) 1).2.1 (by decide),
   (C2_amended ⟨2, 3, 8, 32⟩ (List.replicate 24 5) 1).2.2.1 (by decide),
   (C2_amended ⟨2, 3, 8, 32⟩ (List.replicate 24 5) 1).2.2.2 (by decide)⟩

/-- C3 counterexample: a non-cancelled first completion whose buffer cannot
be mapped. The frame is counted and nothing is persisted, but contrary to
the claim the session does not continue: `frameSaved` is still set, so
`running` becomes false and the request is retired, not recycled. -/
theorem C3_counterexample :
    (Capture.requestComplete ⟨4, 2, 6, 8⟩ Capture.initialState
        ⟨false, false, [⟨[0,1,2,3,4,5,6,7]⟩]⟩).persisted = none ∧
    (Capture.requestComplete ⟨4, 2, 6, 8⟩ Capture.initialState
        ⟨false, false, [⟨[0,1,2,3,4,5,6,7]⟩]⟩).state.frameCount = 1 ∧
    (Capture.requestComplete ⟨4, 2, 6, 8⟩ Capture.initialState
        ⟨false, false, [⟨[0,1,2,3,4,5,6,7]⟩]⟩).state.running = false ∧
    (Capture.requestComplete ⟨4, 2, 6, 8⟩ Capture.initialState
        ⟨false, false, [⟨[0,1,2,3,4,5,6,7]⟩]⟩).resubmitted = false := by decide

/-- C3 amended: when mapping fails on a completion that takes the persistence
branch, no artifact is produced and the frame is still counted, but the
handler still marks the frame as saved, so the session stops: `running`
becomes false and the request is retired rather than recycled. -/
theorem C3_amended (cfg : FrameConfig) (s : Capture.CamState) (c : Completion)
    (hc : c.cancelled = false) (hm : c.mapOk = false)
    (hsave : (s.saveNextFrame || s.frameCount + 1 == 1) = true) :
    (Capture.requestComplete cfg s c).persisted = none ∧
    (Capture.requestComplete cfg s c).state.frameCount = s.frameCount + 1 ∧
    (Capture.requestComplete cfg s c).state.frameSaved = true ∧
    (Capture.requestComplete cfg s c).state.running = false ∧
    (Capture.requestComplete cfg s c).resubmitted = false := by
  rcases c with ⟨cc, mo, pl⟩
  rcases s with ⟨run, fc, sn, fs⟩
  simp only at hc hm hsave
  subst hc hm
  cases sn
  · have hfc : fc = 0 := by simpa using hsave
    subst hfc
    simp [Capture.requestComplete, saveFrameArtifact]
  · simp [Capture.requestComplete, saveFrameArtifact]

/-- C3 witness: the amended theorem at the initial state, mapping failing. -/
theorem C3_witness :
    (Capture.requestComplete ⟨4, 2, 6, 8⟩ Capture.initialState ⟨false, false, []⟩).persisted
        = none ∧
    (Capture.requestComplete ⟨4, 2, 6, 8⟩ Capture.initialState
        ⟨false, false, []⟩).state.frameCount = 0 + 1 ∧
    (Capture.requestComplete ⟨4, 2, 6, 8⟩ Capture.initialState
        ⟨false, false, []⟩).state.frameSaved = true ∧
    (Capture.requestComplete ⟨4, 2, 6, 8⟩ Capture.initialState
        ⟨false, false, []⟩).state.running = false ∧
    (Capture.requestComplete ⟨4, 2, 6, 8⟩ Capture.initialState
        ⟨false, false, []⟩).resubmitted = false :=
  C3_amended ⟨4, 2, 6, 8⟩ Capture.initialState ⟨false, false, []⟩ rfl rfl (by decide)

/-- C4 counterexample: with width 4, height 1, stride 4, 8 bpp (so
stride = bytesPerRow, fast path) and a first plane of 8 bytes, the fast path
writes all 8 mapped bytes, while the row-by-row algorithm (and the first
`height * stride` bytes) is only `[0, 1, 2, 3]`. -/
theorem C4_counterexample :
    saveFrameOutput ⟨4, 1, 4, 8⟩ [0,1,2,3,4,5,6,7] ≠
      rowByRowOutput ⟨4, 1, 4, 8⟩ [0,1,2,3,4,5,6,7] ∧
    saveFrameOutput ⟨4, 1, 4, 8⟩ [0,1,2,3,4,5,6,7] ≠
      ([0,1,2,3,4,5,6,7] : List Nat).take (1 * 4) := by decide

/-- C4 amended: when stride equals the computed row width, the fast path
writes the entire first-plane mapping (`plane0.length` bytes), while the
row-by-row algorithm would write exactly the first `height * stride` bytes;
the two coincide precisely when the plane holds exactly the image, i.e.
`plane0.length = height * stride`. -/
theorem C4_amended (cfg : FrameConfig) (mem : List Nat)
    (h : cfg.imageStride = bytesPerRow cfg) :
    saveFrameOutput cfg mem = mem ∧
    rowByRowOutput cfg mem = mem.take (cfg.imageHeight * cfg.imageStride) ∧
    (mem.length = cfg.imageHeight * cfg.imageStride →
      saveFrameOutput cfg mem = rowByRowOutput cfg mem) := by
  have hrow : rowByRowOutput cfg mem = mem.take (cfg.imageHeight * cfg.imageStride) := by
    unfold rowByRowOutput rowBytes
    rw [← h]
    exact flatMap_take_drop mem cfg.imageStride cfg.imageHeight
  refine ⟨by simp [saveFrameOutput, h], hrow, fun hlen => ?_⟩
  rw [hrow, ← hlen, List.take_length]
  simp [saveFrameOutput, h]

/-- C4 witness: the amended theorem at a 2-row unpadded configuration whose
plane holds exactly the image. -/
theorem C4_amended_witness :
    saveFrameOutput ⟨4, 2, 4, 8⟩ [0,1,2,3,4,5,6,7] = [0,1,2,3,4,5,6,7] ∧
    rowByRowOutput ⟨4, 2, 4, 8⟩ [0,1,2,3,4,5,6,7] =
      ([0,1,2,3,4,5,6,7] : List Nat).take (2 * 4) ∧
    saveFrameOutput ⟨4, 2, 4, 8⟩ [0,1,2,3,4,5,6,7] =
      rowByRowOutput ⟨4, 2, 4, 8⟩ [0,1,2,3,4,5,6,7] :=
  ⟨(C4_amended ⟨4, 2, 4, 8⟩ [0,1,2,3,4,5,6,7] (by decide)).1,
   (C4_amended ⟨4, 2, 4, 8⟩ [0,1,2,3,4,5,6,7] (by decide)).2.1,
   (C4_amended ⟨4, 2, 4, 8⟩ [0,1,2,3,4,5,6,7] (by decide)).2.2 (by decide)⟩

/-- C5: under the stop-after-first-saved-frame policy, any non-cancelled
completion sequence from the initial state persists exactly one frame (the
first completion's), sets `running` to false on that first completion, and
retires the persisting request; `running` is still false at the end. -/
theorem C5_stop_after_first_saved (cfg : FrameConfig) (c0 : Completion)
    (cs : List Completion) (h0 : c0.cancelled = false) (hm : c0.mapOk = true)
    (hall : ∀ c ∈ cs, c.cancelled = false) :
    ((Capture.runCompletions cfg Capture.initialState (c0 :: cs)).2.countP
        (fun r => r.persisted.isSome)) = 1 ∧
    ((Capture.runCompletions cfg Capture.initialState (c0 :: cs)).2.head?.map
        (fun r => r.persisted.isSome)) = some true ∧
    ((Capture.runCompletions cfg Capture.initialState (c0 :: cs)).2.head?.map
        (fun r => r.state.running)) = some false ∧
    ((Capture.runCompletions cfg Capture.initialState (c0 :: cs)).2.head?.map
        (fun r => r.resubmitted)) = some false ∧
    (Capture.runCompletions cfg Capture.initialState (c0 :: cs)).1.running = false := by
  have hr0 : Capture.requestComplete cfg Capture.initialState c0 =
      ⟨⟨false, 1, false, true⟩,
        some (saveFrameOutput cfg (c0.planes.headD ⟨[]⟩).mem), false, false⟩ := by
    rcases c0 with ⟨cc, mo, pl⟩
    simp only at h0 hm
    subst h0 hm
    simp [Capture.requestComplete, Capture.initialState, saveFrameArtifact]
  have hrest := Capture.run_after_saved cfg cs ⟨false, 1, false, true⟩ rfl rfl rfl
    (by decide)
  simp only [Capture.runCompletions, hr0]
  refine ⟨?_, by simp, by simp, by simp, hrest.1⟩
  rw [List.countP_cons]
  have hzero : (Capture.runCompletions cfg (⟨false, 1, false, true⟩ : Capture.CamState)
      cs).2.countP (fun r => r.persisted.isSome) = 0 := by
    rw [List.countP_eq_zero]
    intro r hr
    simp [(hrest.2 r hr).1]
  simp [hzero]

/-- C5 witness: a two-completion session from the initial state. -/
theorem C5_witness :
    ((Capture.runCompletions ⟨4, 2, 4, 8⟩ Capture.initialState
        [⟨false, true, [⟨[0,1,2,3,4,5,6,7]⟩]⟩, ⟨false, true, [⟨[9]⟩]⟩]).2.countP
        (fun r => r.persisted.isSome)) = 1 ∧
    (Capture.runCompletions ⟨4, 2, 4, 8⟩ Capture.initialState
        [⟨false, true, [⟨[0,1,2,3,4,5,6,7]⟩]⟩, ⟨false, true, [⟨[9]⟩]⟩]).1.running = false :=
  ⟨(C5_stop_after_first_saved ⟨4, 2, 4, 8⟩ ⟨false, true, [⟨[0,1,2,3,4,5,6,7]⟩]⟩
      [⟨false, true, [⟨[9]⟩]⟩] rfl rfl (by simp)).1,
   (C5_stop_after_first_saved ⟨4, 2, 4, 8⟩ ⟨false, true, [⟨[0,1,2,3,4,5,6,7]⟩]⟩
      [⟨false, true, [⟨[9]⟩]⟩] rfl rfl (by simp)).2.2.2.2⟩

/-- C6 counterexample: the claim says the semi-planar tags NV12/NV21 yield
12 bpp and the planar tags YUV420/YV12 yield 12 bpp, but the bits-per-pixel
chain of `detectFormatDetails` matches only "YUV420" and "NV12", so "NV21"
(and likewise "YV12") falls through to the 8 bpp default. -/
theorem C6_counterexample :
    (detectFormatDetails "NV21").numPlanes = 2 ∧
    (detectFormatDetails "NV21").bitsPerPixel = 8 ∧
    (detectFormatDetails "NV21").bitsPerPixel ≠ 12 ∧
    (detectFormatDetails "YV12").numPlanes = 3 ∧
    (detectFormatDetails "YV12").bitsPerPixel = 8 := by decide

/-- C6 amended: format resolution is a total deterministic function of the
tag; any tag containing none of the known substrings resolves to the
conservative default of 1 plane and 8 bpp; YUV420 yields 3 planes / 12 bpp
but YV12 yields 3 planes / 8 bpp; NV12 yields 2 planes / 12 bpp but NV21
yields 2 planes / 8 bpp; YUYV/UYVY yield 1 plane / 16 bpp; and the 32-bit
interleaved tags yield 1 plane / 32 bpp. -/
theorem C6_amended (t : String)
    (h1 : strContains t "YUV420" = false) (h2 : strContains t "YV12" = false)
    (h3 : strContains t "NV12" = false) (h4 : strContains t "NV21" = false)
    (h5 : strContains t "XRGB8888" = false) (h6 : strContains t "ARGB8888" = false)
    (h7 : strContains t "XBGR8888" = false) (h8 : strContains t "RGB888" = false)
    (h9 : strContains t "BGR888" = false) (h10 : strContains t "YUYV" = false)
    (h11 : strContains t "UYVY" = false) :
    detectFormatDetails t = ⟨1, 8⟩ ∧
    detectFormatDetails "YUV420" = ⟨3, 12⟩ ∧ detectFormatDetails "YV12" = ⟨3, 8⟩ ∧
    detectFormatDetails "NV12" = ⟨2, 12⟩ ∧ detectFormatDetails "NV21" = ⟨2, 8⟩ ∧
    detectFormatDetails "YUYV" = ⟨1, 16⟩ ∧ detectFormatDetails "UYVY" = ⟨1, 16⟩ ∧
    detectFormatDetails "XRGB8888" = ⟨1, 32⟩ ∧ detectFormatDetails "ARGB8888" = ⟨1, 32⟩ ∧
    detectFormatDetails "XBGR8888" = ⟨1, 32⟩ := by
  refine ⟨?_, by decide, by decide, by decide, by decide, by decide, by decide,
    by decide, by decide, by decide⟩
  simp [detectFormatDetails, detectNumPlanes, detectBitsPerPixel,
    h1, h2, h3, h4, h5, h6, h7, h8, h9, h10, h11]

/-- C6 witness: the amended theorem applied to the unknown tag "MJPEG". -/
theorem C6_witness : detectFormatDetails "MJPEG" = ⟨1, 8⟩ :=
  (C6_amended "MJPEG" (by decide) (by decide) (by decide) (by decide) (by decide)
    (by decide) (by decide) (by decide) (by decide) (by decide) (by decide)).1

/-- C7: once `running` is false a completion never resubmits its request, and
a cancelled request is never resubmitted — in both callbacks. -/
theorem C7_no_resubmit (cfg : FrameConfig) (s : Capture.CamState)
    (sf : FrameDemo.CamState) (c : Completion) :
    (s.running = false → (Capture.requestComplete cfg s c).resubmitted = false) ∧
    (c.cancelled = true → (Capture.requestComplete cfg s c).resubmitted = false) ∧
    (sf.running = false → (FrameDemo.requestComplete sf c).resubmitted = false) ∧
    (c.cancelled = true → (FrameDemo.requestComplete sf c).resubmitted = false) := by
  refine ⟨fun h => ?_, fun h => ?_, fun h => ?_, fun h => ?_⟩ <;>
    simp only [Capture.requestComplete, FrameDemo.requestComplete, h] <;>
    split <;> simp_all

/-- C7 witness: a post-shutdown completion and a cancelled completion, in
both callbacks. -/
theorem C7_witness :
    (Capture.requestComplete ⟨4, 2, 6, 8⟩ ⟨false, 5, false, false⟩
        ⟨false, true, []⟩).resubmitted = false ∧
    (Capture.requestComplete ⟨4, 2, 6, 8⟩ Capture.initialState
        ⟨true, true, []⟩).resubmitted = false ∧
    (FrameDemo.requestComplete ⟨false, 5⟩ ⟨false, true, []⟩).resubmitted = false ∧
    (FrameDemo.requestComplete ⟨true, 0⟩ ⟨true, true, []⟩).resubmitted = false :=
  ⟨(C7_no_resubmit ⟨4, 2, 6, 8⟩ ⟨false, 5, false, false⟩ ⟨false, 5⟩ ⟨false, true, []⟩).1 rfl,
   (C7_no_resubmit ⟨4, 2, 6, 8⟩ Capture.initialState ⟨true, 0⟩ ⟨true, true, []⟩).2.1 rfl,
   (C7_no_resubmit ⟨4, 2, 6, 8⟩ ⟨false, 5, false, false⟩ ⟨false, 5⟩ ⟨false, true, []⟩).2.2.1 rfl,
   (C7_no_resubmit ⟨4, 2, 6, 8⟩ Capture.initialState ⟨true, 0⟩ ⟨true, true, []⟩).2.2.2 rfl⟩

/-- C8: a cancelled request makes both completion callbacks return
immediately: globals untouched, nothing persisted, no status line, no
resubmission. -/
theorem C8_cancelled_noop (cfg : FrameConfig) (s : Capture.CamState)
    (sf : FrameDemo.CamState) (c : Completion) (h : c.cancelled = true) :
    Capture.requestComplete cfg s c = ⟨s, none, false, false⟩ ∧
    FrameDemo.requestComplete sf c = ⟨sf, false, false⟩ := by
  constructor <;> simp [Capture.requestComplete, FrameDemo.requestComplete, h]

/-- C8 witness: the cancelled no-op at the initial states. -/
theorem C8_witness :
    Capture.requestComplete ⟨4, 2, 6, 8⟩ Capture.initialState ⟨true, true, []⟩ =
      ⟨Capture.initialState, none, false, false⟩ ∧
    FrameDemo.requestComplete ⟨true, 0⟩ ⟨true, true, []⟩ = ⟨⟨true, 0⟩, false, false⟩ :=
  C8_cancelled_noop ⟨4, 2, 6, 8⟩ Capture.initialState ⟨true, 0⟩ ⟨true, true, []⟩ rfl

/-- C9: the persisted artifact depends only on the first plane — two buffers
agreeing on `planes[0]` yield byte-identical artifacts (and identical
mapping-failure behavior) however the remaining planes differ; planes past
the first are never mapped or read by the writer. -/
theorem C9_first_plane_only (cfg : FrameConfig) (mapOk : Bool) (p : Plane)
    (rest1 rest2 : List Plane) :
    saveFrameArtifact cfg mapOk (p :: rest1) = saveFrameArtifact cfg mapOk (p :: rest2) := by
  simp [saveFrameArtifact]

/-- C10: the frame counter is incremented by exactly 1 on every non-cancelled
completion and left unchanged on every cancelled one (in both callbacks:
these are the only writers after session start), so over any completion
sequence the final counter is the initial counter plus the number of
non-cancelled completions, and it never decreases. -/
theorem C10_counter_exact (cfg : FrameConfig) (s : Capture.CamState)
    (sf : FrameDemo.CamState) (c : Completion) (cs : List Completion) :
    (Capture.requestComplete cfg s c).state.frameCount
        = s.frameCount + (if c.cancelled then 0 else 1) ∧
    (FrameDemo.requestComplete sf c).state.frameCount
        = sf.frameCount + (if c.cancelled then 0 else 1) ∧
    (Capture.runCompletions cfg s cs).1.frameCount
        = s.frameCount + cs.countP (fun x => !x.cancelled) ∧
    s.frameCount ≤ (Capture.runCompletions cfg s cs).1.frameCount := by
  refine ⟨Capture.requestComplete_frameCount cfg s c,
    FrameDemo.requestComplete_frameCount_demo sf c,
    Capture.runCompletions_frameCount cfg cs s, ?_⟩
  rw [Capture.runCompletions_frameCount cfg cs s]
  omega

end OneCam
